import Mathlib

/-!
Verification development for the incident-triage reference application.

The Python sources under src/incident_agent are shallowly embedded below:
pure functions become Lean functions, mutation of objects becomes explicit
state passing, the two process-wide mutable stores (the tool incident store
and the team registry) become values with inductive reachability relations,
exceptions become Except, Python str becomes String, Python float and
datetime values become Rat, and Python dicts with a fixed key set become
structures.  Nondeterministic inputs of the code (generated ids, clock
readings, random metric samples, the error message of the failed LLM call)
become explicit parameters.
-/

namespace IncidentTriage

/-- Python str.lower (ASCII view of the sources; all keyword lists are ASCII). -/
def lowerStr (s : String) : String := String.mk (s.data.map Char.toLower)

/-- Python substring containment: needle occurs somewhere in the haystack.
    The empty needle is contained in every string, as in Python. -/
def containsSub (hay needle : String) : Bool :=
  hay.data.tails.any (fun t => needle.data.isPrefixOf t)

/-- Python str.split() without arguments: whitespace separated words,
    empty chunks dropped (the sources only ever split prose with spaces). -/
def pyWords (s : String) : List String :=
  (s.splitOn " ").filter (fun w => w ≠ "")

/-- Intersection of two word sets, represented as deduplicated lists;
    the length of the result is the cardinality of the set intersection. -/
def interDedup (a b : List String) : List String :=
  a.dedup.filter (fun x => b.contains x)

/-- Python dict insertion: replace the value at an existing key in place,
    otherwise append the new binding (dicts preserve insertion order). -/
def dictInsert {α : Type} (k : String) (v : α) : List (String × α) → List (String × α)
  | [] => [(k, v)]
  | (k', v') :: rest => if k' = k then (k, v) :: rest else (k', v') :: dictInsert k v rest

/-- Python dict lookup. -/
def dictFind {α : Type} (k : String) : List (String × α) → Option α
  | [] => none
  | (k', v') :: rest => if k' = k then some v' else dictFind k rest

/-! ## Data model (src/incident_agent/schemas.py, models/incident.py)

`IncidentReport` is the canonical validated input record.  Timestamps are
modelled as rationals (seconds); `metrics_data` is an opaque string map. -/

structure IncidentReport where
  id : String
  title : String
  description : String
  source : String
  timestamp : ℚ
  reporter : String
  affected_systems : List String
  error_logs : Option String := none
  metrics_data : Option (List (String × String)) := none
  severity_indicators : List String := []
deriving DecidableEq, Repr

/-- models/incident.py IncidentSeverity. -/
inductive IncidentSeverity where
  | critical
  | high
  | medium
  | low
deriving DecidableEq, Repr

/-- The .value string of the enum member. -/
def IncidentSeverity.value : IncidentSeverity → String
  | .critical => "critical"
  | .high => "high"
  | .medium => "medium"
  | .low => "low"

/-- IncidentSeverity(s): the enum constructor, failing on a non-member string. -/
def IncidentSeverity.ofString : String → Option IncidentSeverity
  | "critical" => some .critical
  | "high" => some .high
  | "medium" => some .medium
  | "low" => some .low
  | _ => none

/-- models/incident.py IncidentStatus. -/
inductive IncidentStatus where
  | open_
  | in_progress
  | resolved
  | closed
deriving DecidableEq, Repr

def IncidentStatus.value : IncidentStatus → String
  | .open_ => "open"
  | .in_progress => "in_progress"
  | .resolved => "resolved"
  | .closed => "closed"

def IncidentStatus.ofString : String → Option IncidentStatus
  | "open" => some .open_
  | "in_progress" => some .in_progress
  | "resolved" => some .resolved
  | "closed" => some .closed
  | _ => none

/-- schemas.py TeamAssignment. -/
structure TeamAssignment where
  team_name : String
  assignment_reason : String
  priority : ℕ
  escalation_path : List String
  estimated_response_time : ℕ
deriving DecidableEq, Repr

/-- schemas.py ResolutionAction. -/
structure ResolutionAction where
  action_type : String
  description : String
  priority : ℕ
  estimated_duration : ℕ
  required_permissions : List String := []
  runbook_reference : Option String := none
deriving DecidableEq, Repr

/-- The escalation record appended by Incident.escalate. -/
structure EscalationRecord where
  timestamp : ℚ
  reason : String
  target_team : Option String
  escalated_from : List String
deriving DecidableEq, Repr

/-- The per-action detail dict of a status_updates entry.  Each mutator
    writes a fixed key set, modelled as one constructor per mutator. -/
inductive UpdateDetails where
  | severitySet (severity reasoning : String)
  | teamAssigned (team reason : String)
  | resolutionActionAdded (action_type description : String)
  | statusUpdated (old_status new_status reason : String)
  | escalated (record : EscalationRecord)
  | markedSecurityIncident
deriving DecidableEq, Repr

/-- One entry of the status_updates audit log. -/
structure StatusUpdate where
  timestamp : ℚ
  action : String
  details : UpdateDetails
deriving DecidableEq, Repr

/-- utils.py calculate_incident_priority_score. -/
def calculate_incident_priority_score (severity : String)
    (affected_systems_count : ℕ) (security_incident : Bool) : ℕ :=
  let base_score : ℕ :=
    if severity = "critical" then 1000
    else if severity = "high" then 100
    else if severity = "medium" then 10
    else if severity = "low" then 1
    else 1
  let system_multiplier := max 1 affected_systems_count
  let security_multiplier := if security_incident then 2 else 1
  base_score * system_multiplier * security_multiplier

/-- models/incident.py Incident: the stateful domain object.  Mutating
    methods become functions Incident → Incident (or Except on the
    validating ones), each taking the current clock reading `now`. -/
structure Incident where
  report : IncidentReport
  severity : Option IncidentSeverity := none
  status : IncidentStatus := .open_
  team_assignments : List TeamAssignment := []
  resolution_actions : List ResolutionAction := []
  is_security_incident : Bool := false
  escalation_needed : Bool := false
  priority_score : ℕ := 0
  created_at : ℚ
  updated_at : ℚ
  resolution_time : Option ℚ := none
  escalation_history : List EscalationRecord := []
  status_updates : List StatusUpdate := []
deriving DecidableEq, Repr

/-- Incident.__init__(incident_report). -/
def Incident.init (incident_report : IncidentReport) (now : ℚ) : Incident :=
  { report := incident_report
    created_at := incident_report.timestamp
    updated_at := now }

/-- Incident.set_severity: validates the severity string, recomputes the
    priority score, appends one audit entry.  ValueError becomes .error. -/
def Incident.set_severity (inc : Incident) (severity : String) (reasoning : String)
    (now : ℚ) : Except String Incident :=
  match IncidentSeverity.ofString severity with
  | none => .error ("Invalid severity level: " ++ severity)
  | some sev =>
    .ok { inc with
      severity := some sev
      priority_score := calculate_incident_priority_score severity
        inc.report.affected_systems.length inc.is_security_incident
      updated_at := now
      status_updates := inc.status_updates ++
        [{ timestamp := now, action := "severity_set"
           details := .severitySet severity reasoning }] }

/-- Incident.assign_team. -/
def Incident.assign_team (inc : Incident) (ta : TeamAssignment) (now : ℚ) : Incident :=
  { inc with
    team_assignments := inc.team_assignments ++ [ta]
    updated_at := now
    status_updates := inc.status_updates ++
      [{ timestamp := now, action := "team_assigned"
         details := .teamAssigned ta.team_name ta.assignment_reason }] }

/-- Incident.add_resolution_action. -/
def Incident.add_resolution_action (inc : Incident) (action : ResolutionAction)
    (now : ℚ) : Incident :=
  { inc with
    resolution_actions := inc.resolution_actions ++ [action]
    updated_at := now
    status_updates := inc.status_updates ++
      [{ timestamp := now, action := "resolution_action_added"
         details := .resolutionActionAdded action.action_type action.description }] }

/-- Incident.update_status: validates the status string; stamps
    resolution_time on a transition into resolved from a non-resolved state. -/
def Incident.update_status (inc : Incident) (new_status : String) (reason : String)
    (now : ℚ) : Except String Incident :=
  match IncidentStatus.ofString new_status with
  | none => .error ("Invalid status: " ++ new_status)
  | some st =>
    let old_status := inc.status
    .ok { inc with
      status := st
      updated_at := now
      resolution_time :=
        if st = .resolved ∧ old_status ≠ .resolved then some now else inc.resolution_time
      status_updates := inc.status_updates ++
        [{ timestamp := now, action := "status_updated"
           details := .statusUpdated old_status.value new_status reason }] }

/-- Incident.escalate. -/
def Incident.escalate (inc : Incident) (escalation_reason : String)
    (target_team : Option String) (now : ℚ) : Incident :=
  let record : EscalationRecord :=
    { timestamp := now
      reason := escalation_reason
      target_team := target_team
      escalated_from := inc.team_assignments.map (fun ta => ta.team_name) }
  { inc with
    escalation_needed := true
    updated_at := now
    escalation_history := inc.escalation_history ++ [record]
    status_updates := inc.status_updates ++
      [{ timestamp := now, action := "escalated", details := .escalated record }] }

/-- Incident.mark_as_security_incident. -/
def Incident.mark_as_security_incident (inc : Incident) (now : ℚ) : Incident :=
  { inc with
    is_security_incident := true
    updated_at := now
    priority_score :=
      match inc.severity with
      | some sev => calculate_incident_priority_score sev.value
          inc.report.affected_systems.length true
      | none => inc.priority_score
    status_updates := inc.status_updates ++
      [{ timestamp := now, action := "marked_security_incident"
         details := .markedSecurityIncident }] }

/-- Incident.get_assigned_teams. -/
def Incident.get_assigned_teams (inc : Incident) : List String :=
  inc.team_assignments.map (fun ta => ta.team_name)

/-- One call to a mutating method of Incident, with its arguments. -/
inductive IncidentOp where
  | setSeverity (severity reasoning : String)
  | assignTeam (ta : TeamAssignment)
  | addResolutionAction (action : ResolutionAction)
  | updateStatus (new_status reason : String)
  | escalateOp (reason : String) (target_team : Option String)
  | markSecurity
deriving DecidableEq, Repr

/-- Apply one mutating method; a raised ValueError leaves the object
    untouched in the sources (the mutation happens after validation),
    so failure is modelled as .error with no successor state. -/
def applyIncidentOp (op : IncidentOp) (inc : Incident) (now : ℚ) :
    Except String Incident :=
  match op with
  | .setSeverity sev reasoning => inc.set_severity sev reasoning now
  | .assignTeam ta => .ok (inc.assign_team ta now)
  | .addResolutionAction a => .ok (inc.add_resolution_action a now)
  | .updateStatus st reason => inc.update_status st reason now
  | .escalateOp reason target => .ok (inc.escalate reason target now)
  | .markSecurity => .ok (inc.mark_as_security_incident now)

/-- The five mutators named by the audit-trail invariant of §3/§4.4. -/
def IncidentOp.isNamedMutator : IncidentOp → Bool
  | .setSeverity _ _ => true
  | .assignTeam _ => true
  | .updateStatus _ _ => true
  | .escalateOp _ _ => true
  | .markSecurity => true
  | .addResolutionAction _ => false

/-! ## Triage router: severity classification (routers/triage_router.py) -/

/-- schemas.py SeverityClassificationSchema.  The pydantic Literal constraint
    on `severity` is kept as the plain string the rest of the code consumes;
    well-formed values are among the four enum strings. -/
structure SeverityClassificationSchema where
  reasoning : String
  severity : String
  security_incident : Bool
  affected_systems : List String
deriving DecidableEq, Repr

/-- The 20-keyword security list of _detect_security_indicators. -/
def security_keywords : List String :=
  ["security", "breach", "unauthorized", "hack", "malware", "virus",
   "intrusion", "vulnerability", "exploit", "attack", "suspicious",
   "authentication", "authorization", "privilege", "injection",
   "xss", "csrf", "sql injection", "ddos", "phishing"]

/-- The security-related affected-system names of _detect_security_indicators. -/
def security_systems : List String :=
  ["auth", "authentication", "authorization", "security", "firewall"]

/-- TriageRouter._detect_security_indicators. -/
def detect_security_indicators (incident_report : IncidentReport) : Bool :=
  let text_to_check := lowerStr (incident_report.title ++ " " ++ incident_report.description)
  if security_keywords.any (fun keyword => containsSub text_to_check keyword) then true
  else if incident_report.severity_indicators.any (fun indicator =>
      security_keywords.any (fun keyword => containsSub (lowerStr indicator) keyword)) then true
  else if incident_report.affected_systems.any (fun system =>
      security_systems.any (fun sec_sys => containsSub (lowerStr system) sec_sys)) then true
  else false

/-- Critical keyword list of _fallback_severity_classification. -/
def critical_keywords : List String :=
  ["outage", "down", "unavailable", "complete failure", "total failure",
   "security breach", "data breach", "unauthorized access", "hack"]

/-- High keyword list of _fallback_severity_classification. -/
def high_keywords : List String :=
  ["degraded", "slow", "timeout", "error rate", "partial failure",
   "performance", "latency", "memory leak"]

/-- TriageRouter._fallback_severity_classification: the deterministic
    heuristic used whenever the LLM call fails. -/
def fallback_severity_classification (incident_report : IncidentReport) : String :=
  let text_to_check := lowerStr (incident_report.title ++ " " ++ incident_report.description)
  if detect_security_indicators incident_report then "critical"
  else if critical_keywords.any (fun keyword => containsSub text_to_check keyword) then "critical"
  else if incident_report.affected_systems.length > 3 then "high"
  else if high_keywords.any (fun keyword => containsSub text_to_check keyword) then "high"
  else if incident_report.affected_systems.length > 1 then "medium"
  else "low"

/-- Modelled from the spec words of C4 (spec.md §4.6), for comparison with
    the source definition above: critical if security indicators or a
    critical keyword, else high if more than 3 systems or a high keyword,
    else medium if more than 1 system, else low. -/
def specFallbackSeverity (incident_report : IncidentReport) : String :=
  let text := lowerStr (incident_report.title ++ " " ++ incident_report.description)
  if detect_security_indicators incident_report
      || critical_keywords.any (fun keyword => containsSub text keyword) then "critical"
  else if incident_report.affected_systems.length > 3
      || high_keywords.any (fun keyword => containsSub text keyword) then "high"
  else if incident_report.affected_systems.length > 1 then "medium"
  else "low"

/-- TriageRouter.should_escalate_immediately. -/
def should_escalate_immediately (classification : SeverityClassificationSchema) : Bool :=
  if classification.severity = "critical" then true
  else if classification.security_incident then true
  else if classification.affected_systems.length > 5 then true
  else false

/-! ## Notification subsystem (notifications/base_notifier.py) -/

/-- The incident-data dict consumed by BaseNotifier.should_notify; only the
    two keys the method reads are modelled, as the dict may omit them. -/
structure NotifierIncidentData where
  severity : Option String
  is_security_incident : Bool
deriving DecidableEq, Repr

/-- BaseNotifier.should_notify; `enabled` is the notifier field consulted by
    is_enabled(). -/
def should_notify (enabled : Bool) (incident_data : NotifierIncidentData)
    (message_type : String) : Bool :=
  if ¬ enabled then false
  else
    let severity := incident_data.severity.getD "low"
    if severity = "critical" then true
    else if incident_data.is_security_incident then true
    else if message_type = "escalated" then true
    else if severity = "high" then true
    else if message_type = "created" ∧ (severity = "medium" ∨ severity = "low") then true
    else false

/-- Modelled from the spec words of C7 (spec.md §4.7): the documented
    first-match-wins rule chain, for comparison with the source definition. -/
def specShouldNotify (enabled : Bool) (incident_data : NotifierIncidentData)
    (message_type : String) : Bool :=
  let severity := incident_data.severity.getD "low"
  if enabled = false then false
  else if severity = "critical" then true
  else if incident_data.is_security_incident then true
  else if message_type = "escalated" then true
  else if severity = "high" then true
  else if message_type = "created" ∧ (severity = "medium" ∨ severity = "low") then true
  else false

/-! ## Team domain model and registry (models/team.py) -/

inductive TeamType where
  | SRE | Backend | Frontend | Infrastructure | Security | Database | DevOps | Network
deriving DecidableEq, Repr

inductive TeamAvailability where
  | available | busy | unavailable | on_call
deriving DecidableEq, Repr

structure TeamCapability where
  incident_type : String
  expertise_level : ℕ
  average_response_time : ℕ
deriving DecidableEq, Repr

structure TeamMember where
  name : String
  role : String
  contact_info : List (String × String)
  on_call : Bool := false
deriving DecidableEq, Repr

structure ResponseTeam where
  name : String
  team_type : TeamType
  capabilities : List TeamCapability
  escalation_path : List String
  members : List TeamMember := []
  availability : TeamAvailability := .available
  current_incidents : List String := []
  workload_score : ℕ := 0
deriving DecidableEq, Repr

/-- ResponseTeam.can_handle_incident_type. -/
def ResponseTeam.can_handle_incident_type (team : ResponseTeam) (incident_type : String) : Bool :=
  team.capabilities.any (fun cap => cap.incident_type = incident_type)

/-- ResponseTeam.get_expertise_level (0 when the type is absent). -/
def ResponseTeam.get_expertise_level (team : ResponseTeam) (incident_type : String) : ℕ :=
  match team.capabilities.find? (fun cap => cap.incident_type = incident_type) with
  | some cap => cap.expertise_level
  | none => 0

/-- ResponseTeam.assign_incident (appends when absent, recomputes workload). -/
def ResponseTeam.assign_incident (team : ResponseTeam) (incident_id : String) : ResponseTeam :=
  if team.current_incidents.contains incident_id then team
  else
    let incidents := team.current_incidents ++ [incident_id]
    { team with current_incidents := incidents, workload_score := incidents.length }

/-- ResponseTeam.resolve_incident (removes when present, recomputes workload). -/
def ResponseTeam.resolve_incident (team : ResponseTeam) (incident_id : String) : ResponseTeam :=
  if team.current_incidents.contains incident_id then
    let incidents := team.current_incidents.erase incident_id
    { team with current_incidents := incidents, workload_score := incidents.length }
  else team

/-- ResponseTeam.set_availability. -/
def ResponseTeam.set_availability (team : ResponseTeam) (availability : TeamAvailability) :
    ResponseTeam :=
  { team with availability := availability }

/-- ResponseTeam.is_available_for_new_incidents: not unavailable and below
    the fixed cap of 5 concurrent incidents. -/
def ResponseTeam.is_available_for_new_incidents (team : ResponseTeam) : Bool :=
  if team.availability = .unavailable then false
  else team.current_incidents.length < 5

/-- TeamRegistry.teams: a name-keyed dict in insertion order. -/
abbrev TeamRegistry := List (String × ResponseTeam)

/-- TeamRegistry.register_team. -/
def register_team (team : ResponseTeam) (registry : TeamRegistry) : TeamRegistry :=
  dictInsert team.name team registry

/-- TeamRegistry.get_team. -/
def get_team (registry : TeamRegistry) (team_name : String) : Option ResponseTeam :=
  dictFind team_name registry

/-- The four teams seeded by TeamRegistry._initialize_default_teams. -/
def sreSeedTeam : ResponseTeam :=
  { name := "SRE", team_type := .SRE
    capabilities :=
      [⟨"outage", 5, 5⟩, ⟨"performance", 4, 10⟩, ⟨"monitoring", 5, 5⟩, ⟨"infrastructure", 4, 15⟩]
    escalation_path := ["Infrastructure", "Backend"] }

def backendSeedTeam : ResponseTeam :=
  { name := "Backend", team_type := .Backend
    capabilities :=
      [⟨"api", 5, 10⟩, ⟨"database", 4, 15⟩, ⟨"performance", 4, 20⟩, ⟨"service", 5, 10⟩]
    escalation_path := ["SRE", "Database"] }

def securitySeedTeam : ResponseTeam :=
  { name := "Security", team_type := .Security
    capabilities :=
      [⟨"security", 5, 5⟩, ⟨"breach", 5, 2⟩, ⟨"vulnerability", 5, 10⟩, ⟨"compliance", 4, 30⟩]
    escalation_path := ["SRE", "Infrastructure"] }

def infrastructureSeedTeam : ResponseTeam :=
  { name := "Infrastructure", team_type := .Infrastructure
    capabilities :=
      [⟨"infrastructure", 5, 10⟩, ⟨"network", 4, 15⟩, ⟨"deployment", 5, 10⟩, ⟨"scaling", 4, 20⟩]
    escalation_path := ["SRE", "DevOps"] }

/-- TeamRegistry.__init__: the registry seeded with the four default teams. -/
def initialRegistry : TeamRegistry :=
  register_team infrastructureSeedTeam
    (register_team securitySeedTeam
      (register_team backendSeedTeam
        (register_team sreSeedTeam [])))

/-- Update the team stored under `team_name` in place, when present. -/
def modifyTeam (team_name : String) (f : ResponseTeam → ResponseTeam)
    (registry : TeamRegistry) : TeamRegistry :=
  registry.map (fun kv => if kv.1 = team_name then (kv.1, f kv.2) else kv)

/-- TeamRegistry.get_available_teams: dict values in insertion order,
    filtered by the availability predicate. -/
def get_available_teams (registry : TeamRegistry) : List ResponseTeam :=
  (registry.map Prod.snd).filter (fun team => team.is_available_for_new_incidents)

/-- Sort key of find_best_team_for_incident: expertise descending then
    workload ascending, as a boolean total preorder for the stable sort. -/
def capableTeamLe (incident_type : String) (a b : ResponseTeam) : Bool :=
  let ka : ℤ × ℕ := (-(a.get_expertise_level incident_type : ℤ), a.workload_score)
  let kb : ℤ × ℕ := (-(b.get_expertise_level incident_type : ℤ), b.workload_score)
  decide (ka.1 < kb.1 ∨ (ka.1 = kb.1 ∧ ka.2 ≤ kb.2))

/-- TeamRegistry.find_best_team_for_incident.  The `severity` argument is
    accepted and ignored, as in the source.  Python list.sort is a stable
    ascending sort by the key tuple, modelled with List.mergeSort. -/
def find_best_team_for_incident (registry : TeamRegistry) (incident_type : String)
    (severity : String := "medium") : Option ResponseTeam :=
  match (get_available_teams registry).filter
      (fun team => team.can_handle_incident_type incident_type) with
  | [] => get_team registry "SRE"
  | capable_teams => (capable_teams.mergeSort (capableTeamLe incident_type)).head?

/-- One mutation of the registry or of a team held by it; the reachable
    registry states are those produced from construction by these steps. -/
inductive RegistryStep where
  | register (team : ResponseTeam)
  | assign (team_name incident_id : String)
  | resolve (team_name incident_id : String)
  | setAvailability (team_name : String) (availability : TeamAvailability)
deriving Repr

def applyRegistryStep (step : RegistryStep) (registry : TeamRegistry) : TeamRegistry :=
  match step with
  | .register team => register_team team registry
  | .assign name iid => modifyTeam name (fun t => t.assign_incident iid) registry
  | .resolve name iid => modifyTeam name (fun t => t.resolve_incident iid) registry
  | .setAvailability name a => modifyTeam name (fun t => t.set_availability a) registry

/-- Registry states reachable from construction. -/
inductive RegistryReachable : TeamRegistry → Prop where
  | init : RegistryReachable initialRegistry
  | step (s : RegistryStep) (r : TeamRegistry) :
      RegistryReachable r → RegistryReachable (applyRegistryStep s r)

/-! ## Historical pattern matching (routers/triage_router.py, module functions)

Python floats become exact rationals; Python set iteration order (observable
only inside the prose insight strings) is fixed to first-occurrence order. -/

/-- One entry of the resolution_actions list of a historical record;
    only the action_type key is read by the sources. -/
structure HistResolutionAction where
  action_type : String := ""
deriving DecidableEq, Repr

/-- A historical incident dict; only the keys the matcher reads are
    modelled (absent keys are the .get defaults, severity None-able). -/
structure HistIncident where
  title : String := ""
  description : String := ""
  affected_systems : List String := []
  severity : Option String := none
  is_security_incident : Bool := false
  resolution_time_minutes : Option ℕ := none
  resolution_actions : List HistResolutionAction := []
  escalation_needed : Bool := false
deriving DecidableEq, Repr

/-- The structured severity_assessment_guidance block attached to a match
    (the nested system_impact_comparison dict is flattened into two fields). -/
structure SeverityAssessmentGuidance where
  historical_severity : Option String
  resolution_time_pattern : Option ℕ
  escalation_pattern : Bool
  historical_systems : ℕ
  current_systems : ℕ
deriving DecidableEq, Repr

/-- A matched historical incident: the original record (the dict spread)
    plus the similarity annotations added by the matcher. -/
structure HistMatch where
  hist : HistIncident
  similarity_score : ℚ
  pattern_insights : List String
  severity_references : List String
  match_confidence : String
  severity_assessment_guidance : SeverityAssessmentGuidance
deriving DecidableEq, Repr

/-- The loop body of match_historical_patterns_with_severity_reference:
    score one historical record against the current incident and build its
    annotations (threshold filtering happens in the caller). -/
def matchEntryFor (incident : Incident) (hist_incident : HistIncident) : HistMatch :=
  let current_title := lowerStr incident.report.title
  let current_systems := (incident.report.affected_systems.map lowerStr).dedup
  let current_description := lowerStr incident.report.description
  let hist_title := lowerStr hist_incident.title
  let title_words := ((pyWords current_title).filter (fun w => w.length > 3)).dedup
  let hist_title_words := ((pyWords hist_title).filter (fun w => w.length > 3)).dedup
  let common_title_words := interDedup title_words hist_title_words
  let titleScore : ℚ :=
    if common_title_words ≠ [] then
      (3/10) * ((common_title_words.length : ℚ) /
        ((max (max title_words.length hist_title_words.length) 1 : ℕ) : ℚ))
    else 0
  let titleInsights : List String :=
    if common_title_words ≠ [] then
      ["Similar keywords: " ++ String.intercalate ", " common_title_words]
    else []
  let hist_systems := (hist_incident.affected_systems.map lowerStr).dedup
  let exactOverlap := interDedup current_systems hist_systems
  let exact_system_overlap := exactOverlap.length
  let systemScore : ℚ :=
    if exact_system_overlap > 0 then
      (4/10) * ((exact_system_overlap : ℚ) /
        ((max (max current_systems.length hist_systems.length) 1 : ℕ) : ℚ))
    else 0
  let systemInsights : List String :=
    if exact_system_overlap > 0 then
      ["Common systems: " ++ String.intercalate ", " exactOverlap]
    else []
  let partial_matches := (current_systems.filter (fun curr_sys =>
      hist_systems.any (fun hist_sys =>
        containsSub hist_sys curr_sys || containsSub curr_sys hist_sys))).length
  let partialScore : ℚ :=
    if partial_matches > 0 then
      (1/10) * ((partial_matches : ℚ) / ((max current_systems.length 1 : ℕ) : ℚ))
    else 0
  let sevPair : ℚ × List String :=
    match hist_incident.severity with
    | some hs =>
      if hs ≠ "" then
        match incident.severity with
        | some cs =>
          if hs = cs.value then
            (15/100, ["Historical severity matches current: " ++ hs])
          else
            (0, ["Historical severity was " ++ hs ++ ", current is " ++ cs.value])
        | none => (0, ["Similar incidents were typically classified as " ++ hs])
      else (0, [])
    | none => (0, [])
  let hist_security := hist_incident.is_security_incident
  let securityBoth := hist_security = incident.is_security_incident ∧ incident.is_security_incident
  let secScore : ℚ := if securityBoth then 1/10 else 0
  let secInsights : List String := if securityBoth then ["Both are security incidents"] else []
  let secRefs : List String :=
    if securityBoth then ["Security incidents typically require immediate escalation"]
    else if hist_security ∧ ¬ incident.is_security_incident then
      ["Similar incidents had security implications - review for security indicators"]
    else []
  let hist_description := lowerStr hist_incident.description
  let desc_words := ((pyWords current_description).filter (fun w => w.length > 4)).dedup
  let hist_desc_words := ((pyWords hist_description).filter (fun w => w.length > 4)).dedup
  let common_desc_words := interDedup desc_words hist_desc_words
  let descScore : ℚ :=
    if common_desc_words.length ≥ 2 then
      (15/100) * ((common_desc_words.length : ℚ) /
        ((max (max desc_words.length hist_desc_words.length) 1 : ℕ) : ℚ))
    else 0
  let descInsights : List String :=
    if common_desc_words.length ≥ 2 then
      ["Similar description terms: " ++ String.intercalate ", " (common_desc_words.take 3)]
    else []
  let resTimeRefs : List String :=
    match hist_incident.resolution_time_minutes with
    | some n =>
      if n ≠ 0 then
        if n < 30 then
          ["Similar incidents were resolved quickly (< 30 min) - may indicate lower severity"]
        else if n > 240 then
          ["Similar incidents took extended time (> 4 hours) - may indicate higher complexity"]
        else ["Similar incidents typically resolved in " ++ toString n ++ " minutes"]
      else []
    | none => []
  let actionInsights : List String :=
    if hist_incident.resolution_actions ≠ [] then
      ["Previous resolution approaches: " ++
        toString hist_incident.resolution_actions.length ++ " actions taken"]
    else []
  let action_types := hist_incident.resolution_actions.map (fun a => a.action_type)
  let actionRefs : List String :=
    if hist_incident.resolution_actions ≠ [] ∧ action_types ≠ [] then
      ["Common resolution actions: " ++ String.intercalate ", " action_types.dedup]
    else []
  let escRefs : List String :=
    if hist_incident.escalation_needed then
      ["Similar incidents required escalation - consider higher severity"]
    else []
  let hist_system_count := hist_incident.affected_systems.length
  let current_system_count := incident.report.affected_systems.length
  let impactRefs : List String :=
    if hist_system_count > current_system_count then
      ["Similar incidents affected more systems (" ++ toString hist_system_count ++
        " vs " ++ toString current_system_count ++ ") - monitor for spread"]
    else if hist_system_count < current_system_count then
      ["Current incident affects more systems than similar historical incidents - consider higher severity"]
    else []
  let similarity_score :=
    titleScore + systemScore + partialScore + sevPair.1 + secScore + descScore
  { hist := hist_incident
    similarity_score := similarity_score
    pattern_insights :=
      titleInsights ++ systemInsights ++ secInsights ++ descInsights ++ actionInsights
    severity_references :=
      sevPair.2 ++ secRefs ++ resTimeRefs ++ actionRefs ++ escRefs ++ impactRefs
    match_confidence :=
      if similarity_score > 6/10 then "high"
      else if similarity_score > 4/10 then "medium"
      else "low"
    severity_assessment_guidance :=
      { historical_severity := hist_incident.severity
        resolution_time_pattern := hist_incident.resolution_time_minutes
        escalation_pattern := hist_incident.escalation_needed
        historical_systems := hist_system_count
        current_systems := current_system_count } }

/-- match_historical_patterns_with_severity_reference: keep matches above
    the 0.25 threshold, stably sort by similarity descending, take 5. -/
def match_historical_patterns_with_severity_reference (incident : Incident)
    (historical_incidents : List HistIncident) : List HistMatch :=
  if historical_incidents = [] then []
  else
    let similar_incidents := (historical_incidents.map (matchEntryFor incident)).filter
      (fun m => m.similarity_score > 1/4)
    (similar_incidents.mergeSort
      (fun a b => decide (b.similarity_score ≤ a.similarity_score))).take 5

/-- Python format specifier .2f applied to a (nonnegative) score; the
    half-to-even tie rule of binary floats is irrelevant to the claims. -/
def formatRat2 (q : ℚ) : String :=
  let n : ℤ := Int.floor (q * 100 + 1/2)
  let whole := n / 100
  let frac := (n % 100).toNat
  toString whole ++ "." ++ (if frac < 10 then "0" else "") ++ toString frac

/-- The severity_weights .get with default 2 used by the enrichment step. -/
def severityWeight (s : String) : ℕ :=
  if s = "critical" then 4
  else if s = "high" then 3
  else if s = "medium" then 2
  else if s = "low" then 1
  else 2

/-- The enrichment tail of apply_historical_patterns_to_severity_assessment:
    with no match the initial classification is returned unchanged, else the
    reasoning text is extended with insights, adjustment advisories and the
    match summary while the severity is kept. -/
def enrichClassification (initial_classification : SeverityClassificationSchema)
    (similar_incidents : List HistMatch) : SeverityClassificationSchema :=
  if similar_incidents = [] then initial_classification
  else
    let strong := similar_incidents.filter (fun m =>
      m.hist.severity.getD "" ≠ "" ∧ m.similarity_score > 4/10)
    let historical_severities := strong.map (fun m => (m.hist.severity.getD "", m.similarity_score))
    let pattern_insights := (strong.map (fun m => m.severity_references)).flatten
    let current_weight := severityWeight initial_classification.severity
    let severity_adjustments : List String :=
      if historical_severities ≠ [] then
        let weighted_historical_score :=
          (historical_severities.map (fun p => (severityWeight p.1 : ℚ) * p.2)).sum
        let total_weight := (historical_severities.map Prod.snd).sum
        if total_weight > 0 then
          let avg_historical_weight := weighted_historical_score / total_weight
          if |avg_historical_weight - (current_weight : ℚ)| ≥ 1 then
            if avg_historical_weight > (current_weight : ℚ) then
              ["Historical patterns suggest higher severity"]
            else ["Historical patterns suggest lower severity"]
          else []
        else []
      else []
    let enhanced1 := initial_classification.reasoning ++
      (if pattern_insights ≠ [] then
        "\n\nHistorical Pattern Analysis:\n" ++
          String.join ((pattern_insights.take 3).map (fun insight => "- " ++ insight ++ "\n"))
      else "")
    let enhanced2 := enhanced1 ++
      (if severity_adjustments ≠ [] then
        "\nSeverity Assessment Notes:\n" ++
          String.join (severity_adjustments.map (fun adjustment => "- " ++ adjustment ++ "\n"))
      else "")
    let enhanced3 := enhanced2 ++
      (if similar_incidents ≠ [] then
        "\nFound " ++ toString similar_incidents.length ++
          " similar historical incidents (top match: " ++
          formatRat2 (((similar_incidents.head?).map (fun m => m.similarity_score)).getD 0) ++
          " similarity)"
      else "")
    { reasoning := enhanced3
      severity := initial_classification.severity
      security_incident := initial_classification.security_incident
      affected_systems := initial_classification.affected_systems }

/-- TriageRouter.apply_historical_patterns_to_severity_assessment: build a
    temporary incident, match it against history, and (only) extend the
    reasoning text via enrichClassification; a ValueError from set_severity
    propagates as .error, exactly as the unguarded exception does. -/
def apply_historical_patterns_to_severity_assessment
    (incident_report : IncidentReport)
    (initial_classification : SeverityClassificationSchema)
    (historical_incidents : List HistIncident) (now : ℚ) :
    Except String SeverityClassificationSchema := do
  let temp0 := Incident.init incident_report now
  let temp1 ← temp0.set_severity initial_classification.severity
    initial_classification.reasoning now
  let temp_incident :=
    if initial_classification.security_incident then temp1.mark_as_security_incident now
    else temp1
  let similar_incidents :=
    match_historical_patterns_with_severity_reference temp_incident historical_incidents
  return enrichClassification initial_classification similar_incidents

/-! ## Core pipeline (incident_agent.py, utils.py)

The embedding models the configuration without OPENAI_API_KEY: the
module-level llm is a mock whose structured call always raises, so
classify_severity always takes its fallback branch (spec.md §6).  Generated
ids, clock readings and the mock failure message are explicit parameters;
the several clock readings of one run are modelled by a single instant.

Two behaviours of the real runtime are part of the embedding. First, the
triage node re-constructs the report with IncidentReport(**incident_data)
although incident_data is already a pydantic model, which raises TypeError
on every call, so the triage except branch (fresh id, severity medium,
escalation true) runs on every input.  Second, the _incident,
_classification and _notifications keys the nodes write are not declared
channels of the IncidentState TypedDict: the graph runtime rebuilds each
node input from the declared channels and drops undeclared update keys, so
those values never reach a later stage or the returned result. -/

/-- A raw dict field that may hold a list or a comma-separated string. -/
inductive RawStrListField where
  | absent
  | ofList (l : List String)
  | ofString (s : String)
deriving DecidableEq, Repr

/-- The raw incident input dict (absent keys are `none` / `absent`).
    The timestamp is modelled as already parsed; an unparseable or missing
    timestamp string both fall back to the current instant in the source. -/
structure RawIncidentInput where
  id : Option String := none
  title : Option String := none
  description : Option String := none
  source : Option String := none
  timestamp : Option ℚ := none
  reporter : Option String := none
  affected_systems : RawStrListField := .absent
  error_logs : Option String := none
  metrics_data : Option (List (String × String)) := none
  severity_indicators : RawStrListField := .absent
deriving DecidableEq, Repr

/-- The splitting applied by parse_incident_data: a comma-separated string
    becomes a list of trimmed chunks, a list passes through, absent is []. -/
def parseListField : RawStrListField → List String
  | .absent => []
  | .ofList l => l
  | .ofString s => (s.splitOn ",").map String.trim

/-- Iterating a raw dict value directly (as route_to_team and
    coordinate_response do on the unparsed input): iterating a Python str
    yields its characters as one-character strings. -/
def rawFieldIter : RawStrListField → List String
  | .absent => []
  | .ofList l => l
  | .ofString s => s.data.map (fun c => String.singleton c)

/-- utils.py parse_incident_data.  Python `raw.get("id") or generate_incident_id()`
    treats an empty id string as absent. -/
def parse_incident_data (raw_data : RawIncidentInput) (generated_id : String)
    (now : ℚ) : IncidentReport :=
  { id :=
      match raw_data.id with
      | some s => if s = "" then generated_id else s
      | none => generated_id
    title := raw_data.title.getD "Untitled Incident"
    description := raw_data.description.getD ""
    source := raw_data.source.getD "api"
    timestamp := raw_data.timestamp.getD now
    reporter := raw_data.reporter.getD "unknown"
    affected_systems := parseListField raw_data.affected_systems
    error_logs := raw_data.error_logs
    metrics_data := raw_data.metrics_data
    severity_indicators := parseListField raw_data.severity_indicators }

/-- TriageRouter.classify_severity in the mock-LLM configuration: the
    structured call raises (message `llm_error`), the deterministic fallback
    classification is built, and historical enrichment is attempted with its
    own failure caught, exactly as the nested try/except does. -/
def classify_severity_without_llm (historical_incidents : List HistIncident)
    (incident_report : IncidentReport) (llm_error : String) (now : ℚ) :
    SeverityClassificationSchema :=
  let fallback_severity := fallback_severity_classification incident_report
  let fallback_classification : SeverityClassificationSchema :=
    { reasoning := "LLM classification failed (" ++ llm_error ++ "), using fallback heuristics"
      severity := fallback_severity
      security_incident := detect_security_indicators incident_report
      affected_systems := incident_report.affected_systems }
  match apply_historical_patterns_to_severity_assessment incident_report
      fallback_classification historical_incidents now with
  | .ok enhanced => enhanced
  | .error _ => fallback_classification

/-- TriageRouter.create_incident_from_classification. -/
def create_incident_from_classification (incident_report : IncidentReport)
    (classification : SeverityClassificationSchema) (now : ℚ) :
    Except String Incident := do
  let incident := Incident.init incident_report now
  let incident ← incident.set_severity classification.severity classification.reasoning now
  let incident :=
    if classification.security_incident then incident.mark_as_security_incident now
    else incident
  let incident :=
    if should_escalate_immediately classification then
      incident.escalate "Automatic escalation due to severity or security implications" none now
    else incident
  return incident

/-- One notification record attached to the workflow state. -/
structure PipelineNotification where
  type_ : String
  recipients : List String
  message : String
  urgency : String
deriving DecidableEq, Repr

/-- schemas.py IncidentState: the declared channels of the workflow state.
    The underscore keys the nodes also touch (_incident, _classification,
    _notifications) are NOT declared channels of this TypedDict: the graph
    runtime rebuilds each node input from the declared channels and drops
    undeclared update keys, so those values never cross a stage boundary
    and are not fields here. -/
structure IncidentState where
  incident_input : RawIncidentInput
  severity_classification : Option String := none
  team_assignment : List String := []
  suggested_actions : List String := []
  escalation_needed : Bool := false
  resolution_status : String := "open"
  incident_id : String := ""
  created_at : Option ℚ := none
  updated_at : Option ℚ := none
deriving DecidableEq, Repr

/-- incident_agent.py line 57: IncidentReport(**incident_data).  But
    incident_data is already the pydantic IncidentReport object returned by
    parse_incident_data, and pydantic BaseModel does not implement the
    mapping protocol, so the double-star unpacking raises TypeError on
    every call. -/
def reconstructIncidentReport (incident_data : IncidentReport) :
    Except String IncidentReport :=
  .error "TypeError: IncidentReport object is not a mapping"

/-- incident_agent.py triage_incident.  The try body parses the input,
    re-constructs the report (which always raises, see
    reconstructIncidentReport), classifies and builds the incident; the
    except branch therefore runs on every input: fresh id, severity medium,
    escalate toward caution.  The one `generated_id` parameter stands for
    the generate_incident_id draws; only the except-branch draw is
    observable because the try never completes.  The in-place writes of
    _incident/_classification in the source's success path are not modelled:
    they are not declared channels and would not propagate (and the success
    path is unreachable). -/
def triage_incident (state : IncidentState) (historical_incidents : List HistIncident)
    (generated_id llm_error : String) (now : ℚ) : IncidentState :=
  let attempt : Except String IncidentState := do
    let incident_data := parse_incident_data state.incident_input generated_id now
    let incident_report ← reconstructIncidentReport incident_data
    let classification :=
      classify_severity_without_llm historical_incidents incident_report llm_error now
    let incident ← create_incident_from_classification incident_report classification now
    return { state with
      incident_id := incident.report.id
      severity_classification := some classification.severity
      created_at := some incident.created_at
      updated_at := some now
      escalation_needed := should_escalate_immediately classification }
  match attempt with
  | .ok next => next
  | .error _ =>
    { state with
      incident_id := generated_id
      severity_classification := some "medium"
      created_at := some now
      updated_at := some now
      escalation_needed := true }

/-- The system-name to incident-type mapping of route_to_team. -/
def systemIncidentType (system : String) : Option String :=
  let incident_type := lowerStr system
  if containsSub incident_type "database" || containsSub incident_type "db" then some "database"
  else if containsSub incident_type "api" then some "api"
  else if containsSub incident_type "infrastructure" || containsSub incident_type "infra" then
    some "infrastructure"
  else if containsSub incident_type "security" || containsSub incident_type "auth" then
    some "security"
  else if containsSub incident_type "network" then some "network"
  else if containsSub incident_type "performance" || containsSub incident_type "slow" then
    some "performance"
  else none

/-- incident_agent.py route_to_team against the module-level team registry.
    state.get("_incident") and state.get("_classification") always return
    None here — the keys are not declared channels, so nothing written by
    the triage node reaches this one — hence the raw-input fallback branch
    always runs and no Security team is prepended. -/
def route_to_team (state : IncidentState) (registry : TeamRegistry) (now : ℚ) :
    IncidentState :=
  let incident : Option Incident := none
  let classification : Option SeverityClassificationSchema := none
  let pair : List String × Option String :=
    match incident, classification with
    | some inc, some cls => (inc.report.affected_systems, some cls.severity)
    | _, _ =>
      (rawFieldIter state.incident_input.affected_systems, state.severity_classification)
  let affected_systems := pair.1
  let severity := pair.2
  let step1 : List String :=
    match classification with
    | some cls => if cls.security_incident then ["Security"] else []
    | none => []
  let assigned_teams := affected_systems.foldl (fun acc system =>
    match systemIncidentType system with
    | some incident_type =>
      match find_best_team_for_incident registry incident_type (severity.getD "") with
      | some best_team =>
        if acc.contains best_team.name then acc else acc ++ [best_team.name]
      | none => acc
    | none => if acc.contains "SRE" then acc else acc ++ ["SRE"]) step1
  let assigned_teams := if assigned_teams = [] then ["SRE"] else assigned_teams
  let assigned_teams :=
    if severity = some "critical" ∧ ¬ assigned_teams.contains "SRE" then
      assigned_teams ++ ["SRE"]
    else assigned_teams
  { state with team_assignment := assigned_teams, updated_at := some now }

/-- The four urgent actions added for critical indicators. -/
def criticalUrgentActions : List String :=
  ["Notify primary on-call engineer immediately",
   "Set up incident war room/bridge",
   "Begin impact assessment and customer communication",
   "Activate incident commander role"]

/-- The four security-specific actions. -/
def securityActions : List String :=
  ["Isolate affected systems if possible",
   "Preserve logs and evidence",
   "Notify security team and compliance",
   "Begin security incident response protocol"]

/-- The four general diagnostic actions always appended. -/
def generalDiagnosticActions : List String :=
  ["Review recent deployments and changes",
   "Check monitoring dashboards for anomalies",
   "Gather additional logs and metrics",
   "Document timeline and initial findings"]

/-- incident_agent.py coordinate_response.  As in route_to_team, the
    _incident/_classification reads always yield None, so the security and
    per-system action blocks never fire; the _notifications update key is
    not a declared channel either, so the notification record built here is
    dropped by the graph and never reaches the final state. -/
def coordinate_response (state : IncidentState) (now : ℚ) : IncidentState :=
  let incident : Option Incident := none
  let classification : Option SeverityClassificationSchema := none
  let assigned_teams := state.team_assignment
  let severity := state.severity_classification
  let severity_indicators := rawFieldIter state.incident_input.severity_indicators
  let title := lowerStr (state.incident_input.title.getD "")
  let description := lowerStr (state.incident_input.description.getD "")
  let is_critical :=
    severity = some "critical"
    || severity_indicators.any (fun indicator =>
        ["outage", "critical", "down", "breach"].contains (lowerStr indicator))
    || ["outage", "critical", "down", "complete", "total"].any
        (fun keyword => containsSub title keyword)
    || ["outage", "critical", "down", "complete", "total"].any
        (fun keyword => containsSub description keyword)
  let actions1 := if is_critical then criticalUrgentActions else []
  let actions2 :=
    match classification with
    | some cls => if cls.security_incident then securityActions else []
    | none => []
  let actions3 :=
    match incident with
    | some inc =>
      inc.report.affected_systems.filterMap (fun system =>
        if containsSub (lowerStr system) "database" then
          some ("Check " ++ system ++ " connection pools and query performance")
        else if containsSub (lowerStr system) "api" then
          some ("Monitor " ++ system ++ " response times and error rates")
        else if containsSub (lowerStr system) "frontend" then
          some ("Check " ++ system ++ " deployment status and CDN health")
        else none)
    | none => []
  let suggested_actions := actions1 ++ actions2 ++ actions3 ++ generalDiagnosticActions
  let isSecurity :=
    match classification with
    | some cls => cls.security_incident
    | none => false
  let _notifications : List PipelineNotification :=
    if severity = some "critical" ∨ isSecurity = true then
      [{ type_ := "immediate"
         recipients := assigned_teams
         message := "CRITICAL: " ++ state.incident_input.title.getD "Incident" ++
           " requires immediate attention"
         urgency := "immediate" }]
    else []
  { state with
    suggested_actions := suggested_actions
    resolution_status := "in_progress"
    updated_at := some now }

/-- The flat result dict returned by process_incident. -/
structure ProcessIncidentResult where
  incident_id : String
  severity : Option String
  assigned_teams : List String
  suggested_actions : List String
  escalation_needed : Bool
  status : String
  created_at : Option ℚ
  updated_at : Option ℚ
  notifications : List PipelineNotification
deriving DecidableEq, Repr

/-- incident_agent.py process_incident: run the three stages in order over
    the module-level registry and extract the flat response.  The
    notifications field is result.get("_notifications", []): always the
    default, because _notifications is not a declared channel of the state
    and the update carrying it is dropped. -/
def process_incident (incident_data : RawIncidentInput)
    (historical_incidents : List HistIncident)
    (generated_id llm_error : String) (now : ℚ) : ProcessIncidentResult :=
  let s0 : IncidentState := { incident_input := incident_data }
  let s1 := triage_incident s0 historical_incidents generated_id llm_error now
  let s2 := route_to_team s1 initialRegistry now
  let s3 := coordinate_response s2 now
  { incident_id := s3.incident_id
    severity := s3.severity_classification
    assigned_teams := s3.team_assignment
    suggested_actions := s3.suggested_actions
    escalation_needed := s3.escalation_needed
    status := s3.resolution_status
    created_at := s3.created_at
    updated_at := s3.updated_at
    notifications := [] }

/-! ## Tool incident store (tools/incident_tools.py)

The process-wide _incident_store dict becomes an insertion-ordered
association list threaded through the operations; generated ids and clock
readings are parameters.  Timeline entries carry the per-event extra keys
only through their details text (no operation or claim reads them back). -/

structure TimelineEntry where
  timestamp : ℚ
  event : String
  details : String
deriving DecidableEq, Repr

/-- One record of the tool store (§3 tool-store incident record). -/
structure ToolIncident where
  incident_id : String
  title : String
  description : String
  severity : String
  status : String
  affected_systems : List String
  reporter : String
  source : String
  created_at : ℚ
  updated_at : ℚ
  assigned_teams : List String
  suggested_actions : List String
  escalation_needed : Bool
  resolution_notes : String
  timeline : List TimelineEntry
deriving DecidableEq, Repr

abbrev ToolStore := List (String × ToolIncident)

/-- create_incident_tool: build the fresh record (empty team/action lists,
    status open, one incident_created timeline entry) and store it. -/
def create_incident_tool (title description severity : String)
    (affected_systems : List String) (reporter source : String)
    (incident_id : String) (now : ℚ) (store : ToolStore) :
    ToolStore × ToolIncident :=
  let incident : ToolIncident :=
    { incident_id := incident_id
      title := title
      description := description
      severity := severity
      status := "open"
      affected_systems := affected_systems
      reporter := reporter
      source := source
      created_at := now
      updated_at := now
      assigned_teams := []
      suggested_actions := []
      escalation_needed := false
      resolution_notes := ""
      timeline :=
        [{ timestamp := now, event := "incident_created"
           details := "Incident created by " ++ reporter }] }
  (dictInsert incident_id incident store, incident)

/-- The record transformation of update_incident_tool: apply each supplied
    field in order, appending one timeline entry per changed field plus one
    for the custom event, then refresh updated_at. -/
def updateToolIncident (incident : ToolIncident) (status severity : Option String)
    (assigned_teams : Option (List String)) (resolution_notes : Option String)
    (add_timeline_event : Option String) (now : ℚ) : ToolIncident :=
  let inc1 : ToolIncident :=
    match status with
    | some st =>
      { incident with
        status := st
        timeline := incident.timeline ++
          [{ timestamp := now, event := "status_changed"
             details := "Status changed from " ++ incident.status ++ " to " ++ st }] }
    | none => incident
  let inc2 : ToolIncident :=
    match severity with
    | some sev =>
      { inc1 with
        severity := sev
        timeline := inc1.timeline ++
          [{ timestamp := now, event := "severity_changed"
             details := "Severity changed from " ++ inc1.severity ++ " to " ++ sev }] }
    | none => inc1
  let inc3 : ToolIncident :=
    match assigned_teams with
    | some teams =>
      { inc2 with
        assigned_teams := teams
        timeline := inc2.timeline ++
          [{ timestamp := now, event := "teams_assigned"
             details := "Teams assigned: " ++ String.intercalate ", " teams }] }
    | none => inc2
  let inc4 : ToolIncident :=
    match resolution_notes with
    | some notes =>
      { inc3 with
        resolution_notes := notes
        timeline := inc3.timeline ++
          [{ timestamp := now, event := "resolution_notes_added"
             details := "Resolution notes updated" }] }
    | none => inc3
  let inc5 : ToolIncident :=
    match add_timeline_event with
    | some text =>
      { inc4 with
        timeline := inc4.timeline ++
          [{ timestamp := now, event := "custom_event", details := text }] }
    | none => inc4
  { inc5 with updated_at := now }

/-- update_incident_tool: NotFound leaves the store untouched and reports
    failure; otherwise the record is updated in place. -/
def update_incident_tool (incident_id : String) (status severity : Option String)
    (assigned_teams : Option (List String)) (resolution_notes : Option String)
    (add_timeline_event : Option String) (now : ℚ) (store : ToolStore) :
    ToolStore × Bool :=
  match dictFind incident_id store with
  | none => (store, false)
  | some incident =>
    let updated := updateToolIncident incident status severity assigned_teams
      resolution_notes add_timeline_event now
    (dictInsert incident_id updated store, true)

/-- One mutation of the tool store. -/
inductive ToolStoreStep where
  | create (title description severity : String) (affected_systems : List String)
      (reporter source incident_id : String) (now : ℚ)
  | update (incident_id : String) (status severity : Option String)
      (assigned_teams : Option (List String)) (resolution_notes : Option String)
      (add_timeline_event : Option String) (now : ℚ)
deriving Repr

def applyToolStoreStep (step : ToolStoreStep) (store : ToolStore) : ToolStore :=
  match step with
  | .create title description severity affected_systems reporter source incident_id now =>
    (create_incident_tool title description severity affected_systems reporter source
      incident_id now store).1
  | .update incident_id status severity assigned_teams resolution_notes add_tl now =>
    (update_incident_tool incident_id status severity assigned_teams resolution_notes
      add_tl now store).1

/-- Tool-store states reachable from the empty store at import time. -/
inductive ToolStoreReachable : ToolStore → Prop where
  | init : ToolStoreReachable []
  | step (s : ToolStoreStep) (store : ToolStore) :
      ToolStoreReachable store → ToolStoreReachable (applyToolStoreStep s store)

/-! ## Diagnostic metrics (tools/diagnostic_tools.py query_metrics_tool)

The 20 pseudo-random samples become an input list constrained by
wellFormedSamples to the documented generator ranges; the returned
recommendation strings and timestamp are not modelled (no claim and no
other operation reads them). -/

/-- The per-metric baseline used by the sample generator. -/
def sampleBase (system metric_type : String) : ℚ :=
  if metric_type = "cpu" then (if system ≠ "database" then 45 else 65)
  else if metric_type = "memory" then (if system ≠ "api" then 60 else 75)
  else if metric_type = "response_time" then (if system ≠ "api" then 150 else 300)
  else if metric_type = "error_rate" then (if system ≠ "auth" then 3/2 else 16/5)
  else 0

/-- Lower bound of one generated sample (the error_rate generator clamps at
    0, which its baseline minus 1 never reaches anyway). -/
def sampleLo (system metric_type : String) : ℚ :=
  if metric_type = "cpu" then sampleBase system metric_type - 15
  else if metric_type = "memory" then sampleBase system metric_type - 10
  else if metric_type = "response_time" then sampleBase system metric_type - 50
  else if metric_type = "error_rate" then max 0 (sampleBase system metric_type - 1)
  else 0

/-- Upper bound of one generated sample. -/
def sampleHi (system metric_type : String) : ℚ :=
  if metric_type = "cpu" then sampleBase system metric_type + 25
  else if metric_type = "memory" then sampleBase system metric_type + 20
  else if metric_type = "response_time" then sampleBase system metric_type + 200
  else if metric_type = "error_rate" then sampleBase system metric_type + 3
  else 100

/-- The sample lists the mock generator can produce: 20 values in range. -/
def wellFormedSamples (system metric_type : String) (values : List ℚ) : Prop :=
  values.length = 20 ∧ ∀ v ∈ values, sampleLo system metric_type ≤ v ∧ v ≤ sampleHi system metric_type

/-- The warning threshold table (the unrecognized-metric branch uses 70). -/
def threshold_warning (metric_type : String) : ℚ :=
  if metric_type = "cpu" then 70
  else if metric_type = "memory" then 80
  else if metric_type = "response_time" then 500
  else if metric_type = "error_rate" then 2
  else 70

/-- The critical threshold table (the unrecognized-metric branch uses 90). -/
def threshold_critical (metric_type : String) : ℚ :=
  if metric_type = "cpu" then 90
  else if metric_type = "memory" then 95
  else if metric_type = "response_time" then 1000
  else if metric_type = "error_rate" then 5
  else 90

/-- The aggregation step (avg, max, min; anything else sums). -/
def aggregateValue (aggregation : String) (values : List ℚ) : ℚ :=
  if aggregation = "avg" then values.sum / (values.length : ℚ)
  else if aggregation = "max" then (values.max?).getD 0
  else if aggregation = "min" then (values.min?).getD 0
  else values.sum

/-- Python round(x, 2) (half-to-even at exact ties is irrelevant to every
    value this development evaluates it on). -/
def round2 (q : ℚ) : ℚ := ((Int.floor (q * 100 + 1/2) : ℚ)) / 100

/-- The status classification block of query_metrics_tool. -/
def statusOfValue (current_value tw tc : ℚ) : String :=
  if current_value ≥ tc then "critical"
  else if current_value ≥ tw then "warning"
  else "normal"

structure MetricQueryResult where
  success : Bool
  system : String
  metric_type : String
  current_value : ℚ
  unit : String
  status : String
  trend : String
  time_range : String
  aggregation : String
  warning_threshold : ℚ
  critical_threshold : ℚ
  data_points : ℕ
deriving DecidableEq, Repr

/-- query_metrics_tool over an explicit sample list: classify the aggregated
    value against the thresholds, compute the trend from the first and last
    five samples, and return the aggregate rounded to two decimals. -/
def query_metrics_tool (system metric_type time_range aggregation : String)
    (values : List ℚ) : MetricQueryResult :=
  let unit :=
    if metric_type = "cpu" then "percent"
    else if metric_type = "memory" then "percent"
    else if metric_type = "response_time" then "milliseconds"
    else if metric_type = "error_rate" then "percent"
    else "units"
  let tw := threshold_warning metric_type
  let tc := threshold_critical metric_type
  let current_value := aggregateValue aggregation values
  let status := statusOfValue current_value tw tc
  let recent_values := values.drop (values.length - 5)
  let older_values := values.take 5
  let recent_avg := recent_values.sum / (recent_values.length : ℚ)
  let older_avg := older_values.sum / (older_values.length : ℚ)
  let trend :=
    if recent_avg > older_avg * (11/10) then "increasing"
    else if recent_avg < older_avg * (9/10) then "decreasing"
    else "stable"
  { success := true
    system := system
    metric_type := metric_type
    current_value := round2 current_value
    unit := unit
    status := status
    trend := trend
    time_range := time_range
    aggregation := aggregation
    warning_threshold := tw
    critical_threshold := tc
    data_points := values.length }

/-! ## Impact-scope prioritization (triage_router.py module functions) -/

/-- The severity_scores table of get_enhanced_priority_score (absent
    severity scores 0 via .get). -/
def severityScoreOf : Option IncidentSeverity → ℕ
  | some .critical => 4
  | some .high => 3
  | some .medium => 2
  | some .low => 1
  | none => 0

/-- The critical-system substrings of prioritize_incidents_with_impact_scope. -/
def criticalSystemsSet : List String :=
  ["auth", "payment", "database", "core", "api-gateway", "load-balancer"]

/-- Impact scope: system count plus twice the critical-system count. -/
def impactScopeScore (incident : Incident) : ℕ :=
  let system_count := incident.report.affected_systems.length
  let critical_system_count := (incident.report.affected_systems.filter (fun system =>
    criticalSystemsSet.any (fun crit => containsSub (lowerStr system) crit))).length
  system_count + critical_system_count * 2

/-- The security boost of get_enhanced_priority_score. -/
def securityBoostOf (incident : Incident) : ℕ :=
  if incident.is_security_incident then 1 else 0

/-- The escalation boost of get_enhanced_priority_score. -/
def escalationBoostOf (incident : Incident) : ℕ :=
  if incident.escalation_needed then 2 else 0

/-- The composite score of get_enhanced_priority_score. -/
def enhancedCompositeScore (incident : Incident) : ℤ :=
  ((severityScoreOf incident.severity + securityBoostOf incident
      + escalationBoostOf incident : ℕ) : ℤ) * 1000
    + (impactScopeScore incident : ℤ) * 10

/-- The full sort key (composite score, negated creation time). -/
def enhancedPriorityKey (incident : Incident) : ℤ × ℚ :=
  (enhancedCompositeScore incident, -incident.created_at)

/-- Lexicographic comparison of Python key tuples. -/
def keyLexLe (k1 k2 : ℤ × ℚ) : Prop :=
  k1.1 < k2.1 ∨ (k1.1 = k2.1 ∧ k1.2 ≤ k2.2)

instance (k1 k2 : ℤ × ℚ) : Decidable (keyLexLe k1 k2) := by
  unfold keyLexLe; infer_instance

/-- Whether a may stay before b under Python sorted(key, reverse=True): its key
    is lexicographically at least that of b (stable descending sort). -/
def enhancedPriorityGe (a b : Incident) : Bool :=
  decide (keyLexLe (enhancedPriorityKey b) (enhancedPriorityKey a))

/-- prioritize_incidents_with_impact_scope: stable descending sort by the
    enhanced priority key. -/
def prioritize_incidents_with_impact_scope (incidents : List Incident) : List Incident :=
  incidents.mergeSort enhancedPriorityGe

/-! ## Concrete inputs used by counterexamples and witnesses -/

/-- A minimal valid incident report used to instantiate theorems. -/
def sampleReport : IncidentReport :=
  { id := "INC-00000001", title := "API errors", description := "elevated error levels"
    source := "api", timestamp := 0, reporter := "tester", affected_systems := ["api"] }

/-- A minimal valid classification used to instantiate theorems. -/
def sampleClassification : SeverityClassificationSchema :=
  { reasoning := "observed error levels", severity := "high"
    security_incident := false, affected_systems := ["api"] }

/-- Build an incident value with the fields the prioritization reads. -/
def demoIncident (iid : String) (sev : Option IncidentSeverity) (sec esc : Bool)
    (systems : List String) (ts : ℚ) : Incident :=
  { report := { id := iid, title := "t", description := "d", source := "api"
                timestamp := ts, reporter := "r", affected_systems := systems }
    severity := sev
    is_security_incident := sec
    escalation_needed := esc
    created_at := ts
    updated_at := ts }

/-- A plain critical incident (no boosts). -/
def plainCritical : Incident := demoIncident "A" (some .critical) false false ["web"] 0

/-- A high incident with security and escalation boosts. -/
def boostedHigh : Incident := demoIncident "B" (some .high) true true ["web"] 0

/-- A plain high incident (no boosts). -/
def plainHigh : Incident := demoIncident "D" (some .high) false false ["web"] 0

/-- The literal end-to-end scenario input of spec §8 property 6. -/
def literalIncidentInput : RawIncidentInput :=
  { title := some "Database connection timeout"
    description := some "Complete database failure affecting all services"
    affected_systems := .ofList ["database", "api"]
    severity_indicators := .ofList ["critical", "outage", "timeout"] }

/-- Whether a suggested action matches one of the three patterns named by
    the end-to-end claim. -/
def actionMatchesUrgentPattern (action : String) : Bool :=
  containsSub action "immediately" || containsSub action "war room" || containsSub action "Activate"

/-- The end-to-end claim exactly as stated (C1), quantified over the
    nondeterministic run parameters. -/
def c1ClaimStatement : Prop :=
  ∀ (generated_id llm_error : String) (now : ℚ),
    (process_incident literalIncidentInput [] generated_id llm_error now).severity = some "critical"
    ∧ (process_incident literalIncidentInput [] generated_id llm_error now).escalation_needed = true
    ∧ ((process_incident literalIncidentInput [] generated_id llm_error now).assigned_teams.contains "Backend"
        ∨ (process_incident literalIncidentInput [] generated_id llm_error now).assigned_teams.contains "SRE")
    ∧ 4 ≤ ((process_incident literalIncidentInput [] generated_id llm_error now).suggested_actions.filter
        actionMatchesUrgentPattern).length

/-- Membership of a severity string in the 4-value enum. -/
def severityIsEnum (s : String) : Prop :=
  s = "critical" ∨ s = "high" ∨ s = "medium" ∨ s = "low"

/-- The tool-store invariant exactly as claimed (C3). -/
def c3ClaimStatement : Prop :=
  ∀ store : ToolStore, ToolStoreReachable store →
    ∀ p ∈ store, p.2.assigned_teams ≠ [] ∧ severityIsEnum p.2.severity
      ∧ p.2.suggested_actions ≠ []

/-- A reachable tool store holding one freshly created incident whose
    severity string was never validated. -/
def oneIncidentToolStore : ToolStore :=
  applyToolStoreStep
    (.create "Checkout broken" "cart failures" "bogus" ["cart"] "tester" "agent" "INC-20240101-aaaaaaaa" 0)
    []

/-- The ordering half of the prioritization claim exactly as stated (C2):
    every critical before every high, every high before every medium/low,
    for every input list (the permutation half is proved separately). -/
def c2OrderClaim : Prop :=
  ∀ incidents : List Incident,
    (∀ i j : Fin (prioritize_incidents_with_impact_scope incidents).length,
      ((prioritize_incidents_with_impact_scope incidents).get i).severity = some .critical →
      ((prioritize_incidents_with_impact_scope incidents).get j).severity = some .high →
      i < j)
    ∧ (∀ i j : Fin (prioritize_incidents_with_impact_scope incidents).length,
      ((prioritize_incidents_with_impact_scope incidents).get i).severity = some .high →
      (((prioritize_incidents_with_impact_scope incidents).get j).severity = some .medium
        ∨ ((prioritize_incidents_with_impact_scope incidents).get j).severity = some .low) →
      i < j)

/-- The metric-status claim exactly as stated (C9), over the returned
    record: status is critical whenever the returned (rounded)
    current_value reaches the critical threshold, and so on. -/
def c9ClaimStatement : Prop :=
  ∀ (system metric_type time_range aggregation : String) (values : List ℚ),
    (metric_type = "cpu" ∨ metric_type = "memory" ∨ metric_type = "response_time"
      ∨ metric_type = "error_rate") →
    wellFormedSamples system metric_type values →
    ((query_metrics_tool system metric_type time_range aggregation values).current_value
        ≥ threshold_critical metric_type →
      (query_metrics_tool system metric_type time_range aggregation values).status = "critical")
    ∧ ((query_metrics_tool system metric_type time_range aggregation values).current_value
          ≥ threshold_warning metric_type
        ∧ (query_metrics_tool system metric_type time_range aggregation values).current_value
          < threshold_critical metric_type →
      (query_metrics_tool system metric_type time_range aggregation values).status = "warning")
    ∧ ((query_metrics_tool system metric_type time_range aggregation values).current_value
          < threshold_warning metric_type →
      (query_metrics_tool system metric_type time_range aggregation values).status = "normal")

/-- Twenty samples of 89.996, attainable by the cpu generator for the
    database system (its range is [50, 90]). -/
def badSamples : List ℚ := List.replicate 20 (89996/1000)

/-- A reachable registry state in which all four seeded teams, SRE
    included, have been set unavailable. -/
def allDownRegistry : TeamRegistry :=
  applyRegistryStep (.setAvailability "Infrastructure" .unavailable)
    (applyRegistryStep (.setAvailability "Security" .unavailable)
      (applyRegistryStep (.setAvailability "Backend" .unavailable)
        (applyRegistryStep (.setAvailability "SRE" .unavailable) initialRegistry)))

/-! ## Theorems -/

theorem dictFind_dictInsert_self {α : Type} (k : String) (v : α) (l : List (String × α)) :
    dictFind k (dictInsert k v l) = some v := by
  induction l with
  | nil => simp [dictInsert, dictFind]
  | cons hd tl ih =>
    by_cases h : hd.1 = k
    · simp [dictInsert, dictFind, h]
    · simp [dictInsert, dictFind, h, ih]

theorem dictFind_dictInsert_ne {α : Type} (k k' : String) (hne : k' ≠ k) (v : α)
    (l : List (String × α)) : dictFind k (dictInsert k' v l) = dictFind k l := by
  induction l with
  | nil => simp [dictInsert, dictFind, hne]
  | cons hd tl ih =>
    by_cases h : hd.1 = k'
    · simp [dictInsert, dictFind, h, hne]
    · simp only [dictInsert, dictFind, h, if_false]
      by_cases h2 : hd.1 = k <;> simp [h2, ih]

/-- C4: the deterministic fallback severity classifier agrees, on every
    incident report, with the reference definition written from the spec
    sentence: critical on security indicators or a critical keyword in
    title+description, else high on more than 3 affected systems or a high
    keyword, else medium on more than 1 system, else low. -/
theorem c4_fallback_severity_matches_spec (r : IncidentReport) :
    fallback_severity_classification r = specFallbackSeverity r := by
  unfold fallback_severity_classification specFallbackSeverity
  by_cases h1 : detect_security_indicators r = true <;>
  by_cases h2 : critical_keywords.any
      (fun keyword => containsSub (lowerStr (r.title ++ " " ++ r.description)) keyword) = true <;>
  by_cases h3 : r.affected_systems.length > 3 <;>
  by_cases h4 : high_keywords.any
      (fun keyword => containsSub (lowerStr (r.title ++ " " ++ r.description)) keyword) = true <;>
  simp [h1, h2, h3, h4]

/-- C7: should_notify is false whenever the notifier is disabled; when it
    is enabled it is true for critical severity or a security incident; and
    on all inputs it equals the documented first-match-wins rule chain. -/
theorem c7_should_notify_rule (enabled : Bool) (incident_data : NotifierIncidentData)
    (message_type : String) :
    (enabled = false → should_notify enabled incident_data message_type = false)
    ∧ (enabled = true →
        (incident_data.severity.getD "low" = "critical" ∨ incident_data.is_security_incident = true) →
        should_notify enabled incident_data message_type = true)
    ∧ should_notify enabled incident_data message_type
        = specShouldNotify enabled incident_data message_type := by
  refine ⟨?_, ?_, ?_⟩
  · intro h; subst h; simp [should_notify]
  · intro h hcrit; subst h
    rcases hcrit with hc | hs
    · simp [should_notify, hc]
    · by_cases hc : incident_data.severity.getD "low" = "critical" <;>
        simp [should_notify, hc, hs]
  · cases enabled <;> simp [should_notify, specShouldNotify]

theorem c7_should_notify_rule_witness :
    should_notify true ⟨some "critical", false⟩ "updated" = true :=
  (c7_should_notify_rule true ⟨some "critical", false⟩ "updated").2.1 rfl (Or.inl rfl)

/-- C6: every successful mutating call appends to the audit log (its length
    never decreases across an operation), and each of the five named
    mutators appends exactly one status_updates entry. -/
theorem c6_status_updates_audit (inc : Incident) (op : IncidentOp) (now : ℚ)
    (inc' : Incident) (h : applyIncidentOp op inc now = .ok inc') :
    inc.status_updates.length ≤ inc'.status_updates.length
    ∧ (op.isNamedMutator = true →
        inc'.status_updates.length = inc.status_updates.length + 1) := by
  cases op with
  | setSeverity sev reasoning =>
    simp only [applyIncidentOp, Incident.set_severity] at h
    rcases hs : IncidentSeverity.ofString sev with _ | s <;> simp [hs] at h
    subst h
    exact ⟨by simp, fun _ => by simp⟩
  | assignTeam ta =>
    simp only [applyIncidentOp, Except.ok.injEq] at h
    subst h
    exact ⟨by simp [Incident.assign_team], fun _ => by simp [Incident.assign_team]⟩
  | addResolutionAction a =>
    simp only [applyIncidentOp, Except.ok.injEq] at h
    subst h
    exact ⟨by simp [Incident.add_resolution_action], fun hf => by cases hf⟩
  | updateStatus st reason =>
    simp only [applyIncidentOp, Incident.update_status] at h
    rcases hs : IncidentStatus.ofString st with _ | s <;> simp [hs] at h
    subst h
    exact ⟨by simp, fun _ => by simp⟩
  | escalateOp reason target =>
    simp only [applyIncidentOp, Except.ok.injEq] at h
    subst h
    exact ⟨by simp [Incident.escalate], fun _ => by simp [Incident.escalate]⟩
  | markSecurity =>
    simp only [applyIncidentOp, Except.ok.injEq] at h
    subst h
    exact ⟨by simp [Incident.mark_as_security_incident],
      fun _ => by simp [Incident.mark_as_security_incident]⟩

theorem c6_status_updates_audit_witness :
    (Incident.init sampleReport 0).status_updates.length
        ≤ ((Incident.init sampleReport 0).escalate "cascading impact" none 0).status_updates.length
    ∧ ((Incident.init sampleReport 0).escalate "cascading impact" none 0).status_updates.length
        = (Incident.init sampleReport 0).status_updates.length + 1 :=
  have h := c6_status_updates_audit (Incident.init sampleReport 0)
    (.escalateOp "cascading impact" none) 0
    ((Incident.init sampleReport 0).escalate "cascading impact" none 0) rfl
  ⟨h.1, h.2 rfl⟩

/-- C5: historical-pattern enrichment never changes the severity of the
    classification it returns, whatever report, initial classification and
    historical data it is given (advisory-only invariant). -/
theorem c5_enrichment_preserves_severity (incident_report : IncidentReport)
    (initial_classification : SeverityClassificationSchema)
    (historical_incidents : List HistIncident) (now : ℚ)
    (enhanced : SeverityClassificationSchema)
    (h : apply_historical_patterns_to_severity_assessment incident_report
      initial_classification historical_incidents now = .ok enhanced) :
    enhanced.severity = initial_classification.severity := by
  unfold apply_historical_patterns_to_severity_assessment at h
  simp only [bind, Except.bind, pure, Except.pure] at h
  rcases hset : (Incident.init incident_report now).set_severity
      initial_classification.severity initial_classification.reasoning now with e | temp1 <;>
    rw [hset] at h
  · cases h
  · cases h
    by_cases hsim : match_historical_patterns_with_severity_reference
        (if initial_classification.security_incident = true
          then temp1.mark_as_security_incident now else temp1) historical_incidents = [] <;>
      simp [enrichClassification, hsim]

theorem c5_enrichment_preserves_severity_witness :
    apply_historical_patterns_to_severity_assessment sampleReport sampleClassification [] 0
        = .ok sampleClassification
    ∧ sampleClassification.severity = sampleClassification.severity :=
  ⟨rfl, c5_enrichment_preserves_severity sampleReport sampleClassification [] 0
    sampleClassification rfl⟩

theorem keyLexLe_trans {k1 k2 k3 : ℤ × ℚ} (h1 : keyLexLe k1 k2) (h2 : keyLexLe k2 k3) :
    keyLexLe k1 k3 := by
  rcases h1 with h | ⟨he, hq⟩ <;> rcases h2 with h' | ⟨he', hq'⟩
  · exact Or.inl (lt_trans h h')
  · exact Or.inl (by rw [← he']; exact h)
  · exact Or.inl (by rw [he]; exact h')
  · exact Or.inr ⟨he.trans he', le_trans hq hq'⟩

theorem keyLexLe_total (k1 k2 : ℤ × ℚ) : keyLexLe k1 k2 ∨ keyLexLe k2 k1 := by
  rcases lt_trichotomy k1.1 k2.1 with h | h | h
  · exact Or.inl (Or.inl h)
  · rcases le_total k1.2 k2.2 with hq | hq
    · exact Or.inl (Or.inr ⟨h, hq⟩)
    · exact Or.inr (Or.inr ⟨h.symm, hq⟩)
  · exact Or.inr (Or.inl h)

theorem enhancedPriorityGe_trans (a b c : Incident) (h1 : enhancedPriorityGe a b = true)
    (h2 : enhancedPriorityGe b c = true) : enhancedPriorityGe a c = true := by
  unfold enhancedPriorityGe at h1 h2 ⊢
  rw [decide_eq_true_eq] at h1 h2 ⊢
  exact keyLexLe_trans h2 h1

theorem enhancedPriorityGe_total (a b : Incident) :
    (enhancedPriorityGe a b || enhancedPriorityGe b a) = true := by
  unfold enhancedPriorityGe
  rcases keyLexLe_total (enhancedPriorityKey b) (enhancedPriorityKey a) with h | h <;> simp [h]

unseal List.merge List.mergeSort

/-- C2 counterexample: on the two-element list [plainCritical, boostedHigh]
    the prioritizer puts the high-severity incident first (its security and
    escalation boosts give composite score 6010 against the 4010 of the
    plain critical incident), so the claimed ordering of every critical
    before every high fails. -/
theorem c2_counterexample : ¬ c2OrderClaim := by
  intro h
  have heval : prioritize_incidents_with_impact_scope [plainCritical, boostedHigh]
      = [boostedHigh, plainCritical] := by decide
  have h1 := (h [plainCritical, boostedHigh]).1
  rw [heval] at h1
  have h2 := h1 ⟨1, by decide⟩ ⟨0, by decide⟩ (by decide) (by decide)
  exact absurd h2 (by decide)

/-- C2 (amended): prioritize_incidents_with_impact_scope returns a
    permutation of its input (same count, same incidents), and the output is
    ordered by non-increasing composite priority; hence among incidents with
    equal security boost, equal escalation boost and equal impact-scope
    score, severity rank never increases along the output, so every critical
    precedes every high and every high precedes every medium/low within such
    a group. -/
theorem c2_prioritize_perm_and_graded_order (incidents : List Incident) :
    (prioritize_incidents_with_impact_scope incidents).Perm incidents
    ∧ ∀ i j : Fin (prioritize_incidents_with_impact_scope incidents).length,
        i < j →
        securityBoostOf ((prioritize_incidents_with_impact_scope incidents).get i)
          = securityBoostOf ((prioritize_incidents_with_impact_scope incidents).get j) →
        escalationBoostOf ((prioritize_incidents_with_impact_scope incidents).get i)
          = escalationBoostOf ((prioritize_incidents_with_impact_scope incidents).get j) →
        impactScopeScore ((prioritize_incidents_with_impact_scope incidents).get i)
          = impactScopeScore ((prioritize_incidents_with_impact_scope incidents).get j) →
        severityScoreOf (((prioritize_incidents_with_impact_scope incidents).get j).severity)
          ≤ severityScoreOf (((prioritize_incidents_with_impact_scope incidents).get i).severity) := by
  constructor
  · exact List.mergeSort_perm incidents enhancedPriorityGe
  · intro i j hij hsec hesc himp
    have hpair := List.sorted_mergeSort
      (fun a b c => enhancedPriorityGe_trans a b c) enhancedPriorityGe_total incidents
    have hge := (List.pairwise_iff_get.mp hpair) i j hij
    have hkey : keyLexLe
        (enhancedPriorityKey ((prioritize_incidents_with_impact_scope incidents).get j))
        (enhancedPriorityKey ((prioritize_incidents_with_impact_scope incidents).get i)) := by
      have h' := hge
      unfold enhancedPriorityGe at h'
      exact of_decide_eq_true h'
    have hcomp : enhancedCompositeScore ((prioritize_incidents_with_impact_scope incidents).get j)
        ≤ enhancedCompositeScore ((prioritize_incidents_with_impact_scope incidents).get i) := by
      rcases hkey with hlt | ⟨heq, _⟩
      · exact le_of_lt hlt
      · exact le_of_eq heq
    unfold enhancedCompositeScore at hcomp
    rw [← hsec, ← hesc, ← himp] at hcomp
    omega

theorem c2_prioritize_perm_and_graded_order_witness :
    prioritize_incidents_with_impact_scope [plainHigh, plainCritical]
        = [plainCritical, plainHigh]
    ∧ severityScoreOf plainHigh.severity ≤ severityScoreOf plainCritical.severity := by
  have heval : prioritize_incidents_with_impact_scope [plainHigh, plainCritical]
      = [plainCritical, plainHigh] := by decide
  refine ⟨heval, ?_⟩
  have h2 := (c2_prioritize_perm_and_graded_order [plainHigh, plainCritical]).2
  rw [heval] at h2
  have h3 := h2 ⟨0, by decide⟩ ⟨1, by decide⟩ (by decide) (by decide) (by decide) (by decide)
  simpa using h3

theorem mem_dictInsert {α : Type} {k : String} {v : α} {l : List (String × α)}
    {p : String × α} (hp : p ∈ dictInsert k v l) : p = (k, v) ∨ p ∈ l := by
  induction l with
  | nil => simpa [dictInsert] using hp
  | cons hd tl ih =>
    by_cases h : hd.1 = k
    · rw [dictInsert, if_pos h] at hp
      rcases List.mem_cons.mp hp with h1 | h1
      · exact Or.inl h1
      · exact Or.inr (List.mem_cons_of_mem _ h1)
    · rw [dictInsert, if_neg h] at hp
      rcases List.mem_cons.mp hp with h1 | h1
      · exact Or.inr (h1 ▸ List.mem_cons_self _ _)
      · rcases ih h1 with h2 | h2
        · exact Or.inl h2
        · exact Or.inr (List.mem_cons_of_mem _ h2)

theorem dictFind_some_mem {α : Type} {k : String} {l : List (String × α)} {v : α}
    (h : dictFind k l = some v) : (k, v) ∈ l := by
  induction l with
  | nil => cases h
  | cons hd tl ih =>
    by_cases hk : hd.1 = k
    · rw [dictFind, if_pos hk] at h
      cases h
      have : (k, hd.2) = hd := by
        rcases hd with ⟨a, b⟩
        simp only at hk
        rw [hk]
      exact this ▸ List.mem_cons_self _ _
    · rw [dictFind, if_neg hk] at h
      exact List.mem_cons_of_mem _ (ih h)

theorem dictFind_cons {α : Type} (k : String) (hd : String × α) (tl : List (String × α)) :
    dictFind k (hd :: tl) = if hd.1 = k then some hd.2 else dictFind k tl := rfl

theorem dictFind_modifyTeam (k n : String) (f : ResponseTeam → ResponseTeam)
    (reg : TeamRegistry) :
    dictFind k (modifyTeam n f reg)
      = (dictFind k reg).map (fun t => if k = n then f t else t) := by
  induction reg with
  | nil => rfl
  | cons hd tl ih =>
    have hstep : modifyTeam n f (hd :: tl)
        = (if hd.1 = n then (hd.1, f hd.2) else hd) :: modifyTeam n f tl := rfl
    rw [hstep, dictFind_cons, dictFind_cons]
    by_cases h1 : hd.1 = n
    · rw [if_pos h1]
      by_cases h2 : hd.1 = k
      · have hkn : k = n := h2.symm.trans h1
        simp [h2, hkn]
      · simp [h2, ih]
    · rw [if_neg h1]
      by_cases h2 : hd.1 = k
      · have hkn : ¬ k = n := by
          intro hk
          apply h1
          rw [h2]
          exact hk
        simp [h2, hkn]
      · simp [h2, ih]

/-- Every reachable registry still holds a team under the key SRE. -/
theorem sre_present_of_reachable {reg : TeamRegistry} (h : RegistryReachable reg) :
    ∃ team, get_team reg "SRE" = some team := by
  induction h with
  | init => exact ⟨sreSeedTeam, rfl⟩
  | step s r hr ih =>
    obtain ⟨t, ht⟩ := ih
    cases s with
    | register team =>
      by_cases hname : team.name = "SRE"
      · refine ⟨team, ?_⟩
        show dictFind "SRE" (dictInsert team.name team r) = some team
        rw [hname]
        exact dictFind_dictInsert_self "SRE" team r
      · refine ⟨t, ?_⟩
        show dictFind "SRE" (dictInsert team.name team r) = some t
        rw [dictFind_dictInsert_ne "SRE" team.name hname team r]
        exact ht
    | assign name iid =>
      refine ⟨if "SRE" = name then t.assign_incident iid else t, ?_⟩
      show dictFind "SRE" (modifyTeam name (fun tt => tt.assign_incident iid) r) = _
      rw [dictFind_modifyTeam]
      have ht' : dictFind "SRE" r = some t := ht
      rw [ht']
      rfl
    | resolve name iid =>
      refine ⟨if "SRE" = name then t.resolve_incident iid else t, ?_⟩
      show dictFind "SRE" (modifyTeam name (fun tt => tt.resolve_incident iid) r) = _
      rw [dictFind_modifyTeam]
      have ht' : dictFind "SRE" r = some t := ht
      rw [ht']
      rfl
    | setAvailability name a =>
      refine ⟨if "SRE" = name then t.set_availability a else t, ?_⟩
      show dictFind "SRE" (modifyTeam name (fun tt => tt.set_availability a) r) = _
      rw [dictFind_modifyTeam]
      have ht' : dictFind "SRE" r = some t := ht
      rw [ht']
      rfl

/-- C8: on every registry state reachable from construction,
    find_best_team_for_incident returns a team for every incident type and
    severity string: the capable branch returns the head of a nonempty sort
    and the fallback branch returns the SRE team, which is always present. -/
theorem c8_find_best_team_total (reg : TeamRegistry) (h : RegistryReachable reg)
    (incident_type severity : String) :
    ∃ team, find_best_team_for_incident reg incident_type severity = some team := by
  rcases hcap : (get_available_teams reg).filter
      (fun team => team.can_handle_incident_type incident_type) with _ | ⟨t0, rest⟩
  · have heq : find_best_team_for_incident reg incident_type severity
        = get_team reg "SRE" := by
      unfold find_best_team_for_incident
      rw [hcap]
    rw [heq]
    exact sre_present_of_reachable h
  · have heq : find_best_team_for_incident reg incident_type severity
        = ((t0 :: rest).mergeSort (capableTeamLe incident_type)).head? := by
      unfold find_best_team_for_incident
      rw [hcap]
    have hlen : ((t0 :: rest).mergeSort (capableTeamLe incident_type)).length
        = rest.length + 1 := by
      exact (List.mergeSort_perm (t0 :: rest) (capableTeamLe incident_type)).length_eq
    rcases hms : (t0 :: rest).mergeSort (capableTeamLe incident_type) with _ | ⟨b, bs⟩
    · rw [hms] at hlen
      cases hlen
    · exact ⟨b, by rw [heq, hms]; rfl⟩

theorem c8_find_best_team_total_witness :
    ∃ team, find_best_team_for_incident initialRegistry "quantum-flux" "low" = some team :=
  c8_find_best_team_total initialRegistry .init "quantum-flux" "low"

/-- C10: whenever no available team is capable of the incident type — in
    particular when capable teams exist but every one of them is unavailable
    or at the 5-incident cap — find_best_team_for_incident returns exactly
    the stored SRE record of the registry, with no availability check on it, and
    that record exists in every reachable state. -/
theorem c10_sre_fallback_bypasses_availability (reg : TeamRegistry)
    (h : RegistryReachable reg) (incident_type severity : String)
    (hnone : (get_available_teams reg).filter
      (fun team => team.can_handle_incident_type incident_type) = []) :
    find_best_team_for_incident reg incident_type severity = get_team reg "SRE"
    ∧ ∃ team, get_team reg "SRE" = some team := by
  constructor
  · unfold find_best_team_for_incident
    simp only [hnone]
  · exact sre_present_of_reachable h

theorem c10_sre_fallback_bypasses_availability_witness :
    find_best_team_for_incident allDownRegistry "database" "high"
        = get_team allDownRegistry "SRE"
    ∧ (∃ team, get_team allDownRegistry "SRE" = some team)
    ∧ (get_team allDownRegistry "SRE").map
        (fun team => team.is_available_for_new_incidents) = some false
    ∧ (get_team allDownRegistry "Backend").map
        (fun team => team.can_handle_incident_type "database") = some true
    ∧ (get_team allDownRegistry "Backend").map
        (fun team => team.is_available_for_new_incidents) = some false := by
  have hreach : RegistryReachable allDownRegistry :=
    .step _ _ (.step _ _ (.step _ _ (.step _ _ .init)))
  have h := c10_sre_fallback_bypasses_availability allDownRegistry hreach
    "database" "high" (by decide)
  exact ⟨h.1, h.2, by decide, by decide, by decide⟩

/-- Record updates never shrink the timeline: an update appends one entry
    per supplied field, so a nonempty timeline stays nonempty. -/
theorem updateToolIncident_timeline_ne_nil (incident : ToolIncident)
    (status severity : Option String) (assigned_teams : Option (List String))
    (resolution_notes add_timeline_event : Option String) (now : ℚ)
    (h : incident.timeline ≠ []) :
    (updateToolIncident incident status severity assigned_teams resolution_notes
      add_timeline_event now).timeline ≠ [] := by
  unfold updateToolIncident
  cases status <;> cases severity <;> cases assigned_teams <;>
    cases resolution_notes <;> cases add_timeline_event <;> simp_all

/-- C3 counterexample: the claimed per-record invariant fails on the store
    reached by a single create call — the fresh record has an empty
    assigned_teams list, an empty suggested_actions list, and stores the
    unvalidated severity string it was given. -/
theorem c3_counterexample : ¬ c3ClaimStatement := by
  intro h
  have hre : ToolStoreReachable oneIncidentToolStore := .step _ _ .init
  have h3 := h oneIncidentToolStore hre ("INC-20240101-aaaaaaaa",
    (create_incident_tool "Checkout broken" "cart failures" "bogus" ["cart"] "tester" "agent"
      "INC-20240101-aaaaaaaa" 0 []).2) (by decide)
  exact absurd h3.1 (by decide)

/-- C3 (amended): over every store state reachable by the tool-store
    create/update operations, every stored incident record has a non-empty
    timeline (creation writes the incident_created entry and updates only
    append); assigned_teams and suggested_actions start empty at creation
    and the severity string is stored without enum validation. -/
theorem c3_tool_store_timeline_invariant (store : ToolStore)
    (h : ToolStoreReachable store) : ∀ p ∈ store, p.2.timeline ≠ [] := by
  induction h with
  | init => intro p hp; cases hp
  | step s store hr ih =>
    intro p hp
    cases s with
    | create title description severity affected_systems reporter source incident_id now =>
      simp only [applyToolStoreStep, create_incident_tool] at hp
      rcases mem_dictInsert hp with h1 | h1
      · rw [h1]
        simp
      · exact ih p h1
    | update incident_id status severity assigned_teams resolution_notes add_tl now =>
      simp only [applyToolStoreStep, update_incident_tool] at hp
      rcases hf : dictFind incident_id store with _ | incident
      · rw [hf] at hp
        exact ih p hp
      · rw [hf] at hp
        rcases mem_dictInsert hp with h1 | h1
        · rw [h1]
          exact updateToolIncident_timeline_ne_nil incident status severity assigned_teams
            resolution_notes add_tl now (ih (incident_id, incident) (dictFind_some_mem hf))
        · exact ih p h1

theorem c3_tool_store_timeline_invariant_witness :
    ToolStoreReachable oneIncidentToolStore
    ∧ ∀ p ∈ oneIncidentToolStore, p.2.timeline ≠ [] :=
  ⟨.step _ _ .init, c3_tool_store_timeline_invariant oneIncidentToolStore (.step _ _ .init)⟩

theorem threshold_warning_lt_critical (metric_type : String) :
    threshold_warning metric_type < threshold_critical metric_type := by
  unfold threshold_warning threshold_critical
  split_ifs <;> norm_num

theorem statusOfValue_iff (v tw tc : ℚ) (hwc : tw < tc) :
    (statusOfValue v tw tc = "critical" ↔ tc ≤ v)
    ∧ (statusOfValue v tw tc = "warning" ↔ tw ≤ v ∧ v < tc)
    ∧ (statusOfValue v tw tc = "normal" ↔ v < tw) := by
  unfold statusOfValue
  split_ifs with h1 h2 <;> refine ⟨?_, ?_, ?_⟩ <;> simp_all <;> linarith

theorem abs_round2_sub_le (q : ℚ) : |round2 q - q| ≤ 1/200 := by
  have h1 : ((Int.floor (q * 100 + 1/2) : ℤ) : ℚ) ≤ q * 100 + 1/2 := Int.floor_le _
  have h2 : q * 100 + 1/2 - 1 < ((Int.floor (q * 100 + 1/2) : ℤ) : ℚ) :=
    Int.sub_one_lt_floor _
  rw [abs_le]
  unfold round2
  constructor <;> [linarith; linarith]

/-- C9 counterexample: for the cpu metric on the database system with the
    attainable sample list badSamples (twenty values of 89.996, inside the
    generator range [50, 90]), the returned current_value rounds up to 90,
    at the critical threshold, while the status — computed from the
    unrounded aggregate 89.996 — is warning, not critical. -/
theorem c9_counterexample : ¬ c9ClaimStatement := by
  intro h
  have hwf : wellFormedSamples "database" "cpu" badSamples := by
    constructor
    · rfl
    · intro v hv
      have hv' := List.eq_of_mem_replicate hv
      rw [hv']
      constructor <;> norm_num [sampleLo, sampleHi, sampleBase]
  have hagg : aggregateValue "avg" badSamples = 89996/1000 := by
    simp only [aggregateValue, badSamples, if_pos rfl, List.sum_replicate, List.length_replicate]
    norm_num
  have hcur : (query_metrics_tool "database" "cpu" "1h" "avg" badSamples).current_value = 90 := by
    show round2 (aggregateValue "avg" badSamples) = 90
    rw [hagg]
    unfold round2
    have hfl : Int.floor ((89996 : ℚ)/1000 * 100 + 1/2) = 9000 := by
      rw [Int.floor_eq_iff]
      norm_num
    rw [hfl]
    norm_num
  have hstat : (query_metrics_tool "database" "cpu" "1h" "avg" badSamples).status
      = "warning" := by
    show statusOfValue (aggregateValue "avg" badSamples)
      (threshold_warning "cpu") (threshold_critical "cpu") = "warning"
    rw [hagg]
    have htw : threshold_warning "cpu" = 70 := rfl
    have htc : threshold_critical "cpu" = 90 := rfl
    rw [htw, htc]
    unfold statusOfValue
    rw [if_neg (by norm_num), if_pos (by norm_num)]
  have h2 := (h "database" "cpu" "1h" "avg" badSamples (Or.inl rfl) hwf).1
  have h3 := h2 (by rw [hcur]; norm_num [threshold_critical])
  rw [hstat] at h3
  exact absurd h3 (by decide)

/-- C9 (amended): the status returned by query_metrics_tool classifies the
    unrounded aggregated value against the threshold pair of the metric —
    critical iff that value reaches the critical threshold, warning iff it
    reaches the warning threshold but not the critical one, normal iff it
    reaches neither — while the returned current_value is that aggregate
    rounded to two decimals, within 1/200 of the value the status was
    computed from. -/
theorem c9_metric_status_vs_thresholds (system metric_type time_range aggregation : String)
    (values : List ℚ) :
    ((query_metrics_tool system metric_type time_range aggregation values).status = "critical"
      ↔ threshold_critical metric_type ≤ aggregateValue aggregation values)
    ∧ ((query_metrics_tool system metric_type time_range aggregation values).status = "warning"
      ↔ threshold_warning metric_type ≤ aggregateValue aggregation values
          ∧ aggregateValue aggregation values < threshold_critical metric_type)
    ∧ ((query_metrics_tool system metric_type time_range aggregation values).status = "normal"
      ↔ aggregateValue aggregation values < threshold_warning metric_type)
    ∧ (query_metrics_tool system metric_type time_range aggregation values).current_value
      = round2 (aggregateValue aggregation values)
    ∧ |(query_metrics_tool system metric_type time_range aggregation values).current_value
        - aggregateValue aggregation values| ≤ 1/200 := by
  have hs : (query_metrics_tool system metric_type time_range aggregation values).status
      = statusOfValue (aggregateValue aggregation values)
        (threshold_warning metric_type) (threshold_critical metric_type) := rfl
  have hc : (query_metrics_tool system metric_type time_range aggregation values).current_value
      = round2 (aggregateValue aggregation values) := rfl
  have hiff := statusOfValue_iff (aggregateValue aggregation values)
    (threshold_warning metric_type) (threshold_critical metric_type)
    (threshold_warning_lt_critical metric_type)
  rw [hs, hc]
  exact ⟨hiff.1, hiff.2.1, hiff.2.2, rfl, abs_round2_sub_le _⟩

set_option maxHeartbeats 2000000 in
/-- C1 counterexample: on the literal scenario input the pipeline never
    reaches a classification at all — the report re-construction raises
    TypeError on every run, so the triage except branch yields severity
    medium, not critical; and only 3 of the suggested actions match the
    urgent patterns, not 4. -/
theorem c1_counterexample : ¬ c1ClaimStatement := by
  intro h
  have h1 := (h "INC-AAAAAAAA" "mock failure" 0).1
  exact absurd h1 (by decide)

set_option maxHeartbeats 2000000 in
/-- C1 (amended): submitting the literal raw incident to process_incident
    yields severity medium and escalation_needed true — the triage except
    branch (fail toward caution) runs on every input because the report
    re-construction raises TypeError — assigned_teams exactly [Backend]
    via the raw-input fallback routing (which meets the claimed
    Backend-or-SRE condition), and 8 suggested actions of which exactly 3
    match the patterns immediately / war room / Activate (the four urgent
    actions fire because the severity indicators contain critical and
    outage; the per-system and security blocks cannot fire because the
    _incident/_classification keys never propagate), with status
    in_progress and no notifications.  The generated id, mock-failure
    message and clock reading are fixed representatives: they flow only
    into the incident id, the reasoning text and the stored timestamps,
    none of which is asserted here. -/
theorem c1_literal_scenario :
    (process_incident literalIncidentInput [] "INC-AAAAAAAA" "mock failure" 0).severity
      = some "medium"
    ∧ (process_incident literalIncidentInput [] "INC-AAAAAAAA" "mock failure" 0).escalation_needed
      = true
    ∧ (process_incident literalIncidentInput [] "INC-AAAAAAAA" "mock failure" 0).assigned_teams
      = ["Backend"]
    ∧ ((process_incident literalIncidentInput []
        "INC-AAAAAAAA" "mock failure" 0).suggested_actions.filter
        actionMatchesUrgentPattern).length = 3
    ∧ (process_incident literalIncidentInput []
        "INC-AAAAAAAA" "mock failure" 0).suggested_actions.length = 8
    ∧ (process_incident literalIncidentInput [] "INC-AAAAAAAA" "mock failure" 0).status
      = "in_progress"
    ∧ (process_incident literalIncidentInput [] "INC-AAAAAAAA" "mock failure" 0).notifications
      = [] := by
  refine ⟨?_, ?_, ?_, ?_, ?_, ?_, ?_⟩ <;> decide

end IncidentTriage
